import Mathlib

/-!
Verification of the cscs-reframe-tests repository: a shallow embedding of

* `config/systems-uenv/santis-uenv.py` and
  `config/systems-uenv/pilatus-uenv.py` — ReFrame site-configuration
  scripts that parse the `UENV` environment variable, check the uenv
  image path, load the YAML metadata describing the environments of the
  image, and build the site configuration (partition `environs` list and
  `environments` records); and

* `checks/system/integration/utils.py` — the `Check` helper that turns a
  one-line shell-command description into a registered ReFrame test.

Python strings become `String`, dictionaries of YAML metadata become
association lists of `EnvEntry` (insertion order preserved, as in
Python), exceptions become an explicit `Except LoadErr` result, the
filesystem (`path.exists`, `open` + `yaml.load`) becomes an explicit
`FsModel`, and `os.environ.get` becomes `Option String` parameters.
All string/path helpers are written as structural recursions over
`List Char` so that every definition evaluates inside the kernel.
-/

namespace CSCSReframe

/-! ## String helpers mirroring the Python primitives used by the code -/

/-- Split a character list at every character satisfying `p`, keeping
empty segments — the semantics of Python `str.split(sep)` for a
one-character separator (`''.split(sep) == ['']`). -/
def splitByPred (p : Char → Bool) : List Char → List (List Char)
  | [] => [[]]
  | c :: cs =>
    if p c then [] :: splitByPred p cs
    else
      match splitByPred p cs with
      | [] => [[c]]
      | h :: t => (c :: h) :: t

/-- Python `s.split(sep)` for a single-character separator. -/
def pySplit (sep : Char) (s : String) : List String :=
  (splitByPred (fun c => c == sep) s.data).map String.mk

/-- Python's whitespace class for `str.split()` with no argument. -/
def pyIsSpace (c : Char) : Bool :=
  c == ' ' || c == '\t' || c == '\n' || c == '\r' || c == '\x0b' || c == '\x0c'

/-- Python `s.split()`: split on whitespace runs, dropping empty pieces. -/
def pySplitWhitespace (s : String) : List String :=
  ((splitByPred pyIsSpace s.data).map String.mk).filter (fun x => x ≠ "")

/-- `startsWithChars pat cs`: is `pat` an initial segment of `cs`?
(Python `str.startswith`, spelled out structurally.) -/
def startsWithChars : List Char → List Char → Bool
  | [], _ => true
  | _ :: _, [] => false
  | p :: ps, c :: cs => p == c && startsWithChars ps cs

/-- Python `s.startswith(pat)`. -/
def strStartsWith (s pat : String) : Bool :=
  startsWithChars pat.data s.data

/-- Does character `c` occur in `s`? -/
def hasCharIn (c : Char) (s : String) : Bool :=
  s.data.any (fun x => x == c)

/-- Join strings with a separator (Python `sep.join`). -/
def joinWith (sep : String) : List String → String
  | [] => ""
  | [x] => x
  | x :: y :: xs => x ++ sep ++ joinWith sep (y :: xs)

/-! ## A model of the fragment of `pathlib.PurePosixPath` the scripts use

`pathlib` drops empty components and `'.'` components; `str(Path(''))`
is `'.'`; `name` is the last component; `stem` is `name` without its
last suffix (CPython keeps the name unchanged when the last dot is at
position 0 or at the very end); `parent` drops the last component. -/

/-- The components of a POSIX path as `pathlib` keeps them. -/
def pathComps (s : String) : List String :=
  (pySplit '/' s).filter (fun c => c != "" && c != ".")

/-- Reassemble a path from absoluteness and components, as `str(Path(...))`
renders it (the empty relative path renders as `"."`). -/
def pathStrOf (isAbs : Bool) (comps : List String) : String :=
  if isAbs then "/" ++ joinWith "/" comps
  else if comps.isEmpty then "." else joinWith "/" comps

/-- `str(pathlib.Path(s))`. -/
def pathNormStr (s : String) : String :=
  pathStrOf (strStartsWith s "/") (pathComps s)

/-- `pathlib.Path(s).name`. -/
def pathNameOf (s : String) : String :=
  (pathComps s).getLastD ""

/-- Index of the last occurrence of `c`, CPython `str.rfind` (as Option). -/
def rfindChar (c : Char) : List Char → Option Nat
  | [] => none
  | x :: xs =>
    match rfindChar c xs with
    | some i => some (i + 1)
    | none => if x == c then some 0 else none

/-- CPython `PurePath.stem` applied to a file *name*: strip from the last
dot provided `0 < i < len(name) - 1`. -/
def stemOfName (n : String) : String :=
  match rfindChar '.' n.data with
  | some i => if 0 < i ∧ i < n.data.length - 1 then String.mk (n.data.take i) else n
  | none => n

/-- `pathlib.Path(s).stem`. -/
def pathStemOf (s : String) : String :=
  stemOfName (pathNameOf s)

/-- `str(pathlib.Path(file).parent / fname)` for a relative `fname`
containing no slash (the shape `image_path.parent / f'{image_name}.yaml'`
takes in both config scripts). -/
def metaPathOf (file fname : String) : String :=
  pathStrOf (strStartsWith file "/") ((pathComps file).dropLast ++ [fname])

/-! ## Parsing the `UENV` variable (shared by both config scripts)

```python
uenv_list = uenv.split(',')
uenv_first = uenv_list[0]
uenv_file, *image_mount = uenv_first.split(':')
if len(image_mount) > 0: image_mount = image_mount[0]
else:                    image_mount = '/user-environment'
```
-/

/-- `uenv.split(',')[0]`. -/
def uenv_first_of (uenv : String) : String :=
  (pySplit ',' uenv).headD ""

/-- `uenv_first.split(':')[0]`. -/
def uenv_file_of (pair : String) : String :=
  (pySplit ':' pair).headD ""

/-- The mount point taken from the first `image:mount` pair, with the
`'/user-environment'` default when the pair has no colon. -/
def image_mount_of (pair : String) : String :=
  match pySplit ':' pair with
  | _ :: m :: _ => m
  | _ => "/user-environment"

/-! ## Data model of the YAML metadata and the produced configuration -/

/-- The Python value found under the `'activation'` key of one metadata
entry, as `yaml.load` with `BaseLoader` can produce it: a string, a list
of command strings, or any other value (e.g. a mapping). -/
inductive Activation where
  | str (script : String)
  | list (commands : List String)
  | other
deriving DecidableEq

/-- One `key: value` entry of the loaded metadata dictionary.  Only the
fields the scripts inspect are modelled; the remaining fields of `v` are
copied verbatim by `env.update(v)` and never influence control flow. -/
structure EnvEntry where
  key : String
  activation : Activation
deriving DecidableEq

/-- The environment record appended to `actual_environs` (the fields the
scripts themselves compute). -/
structure EnvRecord where
  name : String
  target_systems : List String
  prepare_cmds : List String
deriving DecidableEq

/-- How configuration loading can abort: `reframe.core.exceptions.ConfigError`
raised by the scripts, a Python `NameError` (santis and pilatus read
`actual_environs` without ever assigning it when the metadata dictionary
is empty), or a Python `AttributeError` (santis calls `.startswith` on a
non-string activation value). -/
inductive LoadErr where
  | configError (msg : String)
  | nameError (msg : String)
  | attributeError (msg : String)
deriving DecidableEq

instance {ε α : Type} [DecidableEq ε] [DecidableEq α] : DecidableEq (Except ε α)
  | .ok a, .ok b =>
    if h : a = b then .isTrue (by rw [h])
    else .isFalse (fun hh => h (Except.ok.inj hh))
  | .ok _, .error _ => .isFalse (fun hh => Except.noConfusion hh)
  | .error _, .ok _ => .isFalse (fun hh => Except.noConfusion hh)
  | .error a, .error b =>
    if h : a = b then .isTrue (by rw [h])
    else .isFalse (fun hh => h (Except.error.inj hh))

/-- The ambient filesystem: `path.exists()` on a rendered path string, and
`open` + `yaml.load` of the metadata file (`none` models an `OSError` on
`open`; `some entries` a successfully parsed dictionary in insertion
order). -/
structure FsModel where
  pathExists : String → Bool
  readMeta : String → Option (List EnvEntry)

/-- The parts of `site_configuration` that the scripts compute from their
inputs (cluster-constant fields are omitted as data, per the spec). -/
structure SiteConfig where
  system_name : String
  partition_environs : List String
  partition_access : List String
  environments : List EnvRecord
deriving DecidableEq

/-! ## Messages raised by the scripts -/

def santis_uenv_msg : String :=
  "Enviroment variable UENV is missing or empty. Set to location of user environment to load."

def image_missing_msg (p : String) : String :=
  "uenv image: '" ++ p ++ "' does not exist"

def activation_mount_msg (k mount : String) : String :=
  "activation script of '" ++ k ++ "' is not consistent with the mount point: '" ++ mount ++ "'"

def pilatus_activation_msg : String :=
  "activation has to be either a file to be sourced or a list of commands to be executed to configure the environment"

/-- The santis warning printed when the metadata file cannot be opened
(the trailing `(OSError: ..., cwd: ...)` detail carries runtime values
outside the model and is omitted). -/
def santis_warn_msg (image_name rfm_meta : String) : String :=
  "WARNING: Unable to find ReFrame meta data for user environment " ++ image_name ++ " in " ++ rfm_meta

def pilatus_meta_msg (rfm_meta : String) : String :=
  "PI problem loading the metadata from '" ++ rfm_meta ++ "'"

def name_err_msg : String := "name 'actual_environs' is not defined"

/-! ## Per-entry processing of the `for k, v in image_environments.items()` loops -/

/-- Santis loop body (lines 105-121): `v['activation']` is used directly as
a string; `.startswith` on a non-string raises `AttributeError`. -/
def santis_env_of (image_mount image_name : String) (e : EnvEntry) : Except LoadErr EnvRecord :=
  match e.activation with
  | .str s =>
    if strStartsWith s image_mount then
      .ok { name := image_name ++ "_" ++ e.key,
            target_systems := ["santis"],
            prepare_cmds := ["source " ++ s] }
    else .error (.configError (activation_mount_msg e.key image_mount))
  | .list _ => .error (.attributeError "'list' object has no attribute 'startswith'")
  | .other => .error (.attributeError "object has no attribute 'startswith'")

/-- Pilatus loop body (lines 96-125): a string activation is validated
against the mount point and sourced, a list is taken as the prepare
commands, anything else raises `ConfigError`. -/
def pilatus_env_of (image_mount image_name : String) (e : EnvEntry) : Except LoadErr EnvRecord :=
  match e.activation with
  | .str s =>
    if strStartsWith s image_mount then
      .ok { name := image_name ++ "_" ++ e.key,
            target_systems := ["pilatus"],
            prepare_cmds := ["source " ++ s] }
    else .error (.configError (activation_mount_msg e.key image_mount))
  | .list cmds =>
    .ok { name := image_name ++ "_" ++ e.key,
          target_systems := ["pilatus"],
          prepare_cmds := cmds }
  | .other => .error (.configError pilatus_activation_msg)

/-- Run the loop body over the metadata entries in order; the first raised
exception propagates (as in Python). -/
def build_environs (per : EnvEntry → Except LoadErr EnvRecord) :
    List EnvEntry → Except LoadErr (List EnvRecord)
  | [] => .ok []
  | e :: rest =>
    match per e with
    | .error err => .error err
    | .ok r =>
      match build_environs per rest with
      | .error err => .error err
      | .ok rs => .ok (r :: rs)

/-- `environ_names = [f'{image_name}_{e}' for e in environs] or
[f'{image_name}_builtin']`. -/
def environ_names_of (image_name : String) (entries : List EnvEntry) : List String :=
  match entries.map (fun e => image_name ++ "_" ++ e.key) with
  | [] => [image_name ++ "_builtin"]
  | l => l

/-! ## The santis configuration script -/

/-- The metadata file santis opens: `UENV_REFRAME_META` when set and
non-empty, otherwise `image_path.parent / f'{image_name}.yaml'`. -/
def santis_meta_path (uenv_first : String) (rfm_meta_var : Option String) : String :=
  let default_path :=
    metaPathOf (uenv_file_of uenv_first) (pathStemOf (uenv_file_of uenv_first) ++ ".yaml")
  match rfm_meta_var with
  | some m => if m = "" then default_path else m
  | none => default_path

/-- Santis processing after the `UENV` truthiness check, starting from
`uenv_first`.  On `OSError` the script catches the exception, prints a
warning and continues with `image_environments = {}`; the guarded
`if image_environments: actual_environs = []` then never runs, and the
final `site_configuration` dictionary raises `NameError` on the
undefined `actual_environs`. -/
def santis_after_check (uenv_first : String) (rfm_meta_var : Option String) (fs : FsModel) :
    List String × Except LoadErr SiteConfig :=
  let uenv_file := uenv_file_of uenv_first
  let image_mount := image_mount_of uenv_first
  let image_path := pathNormStr uenv_file
  if fs.pathExists image_path then
    let image_name := pathStemOf uenv_file
    let uenv_access := ["--uenv=" ++ uenv_file ++ ":" ++ image_mount]
    let rfm_meta := santis_meta_path uenv_first rfm_meta_var
    match fs.readMeta rfm_meta with
    | none =>
      ([santis_warn_msg image_name rfm_meta], .error (.nameError name_err_msg))
    | some entries =>
      if entries.isEmpty then ([], .error (.nameError name_err_msg))
      else
        match build_environs (santis_env_of image_mount image_name) entries with
        | .error err => ([], .error err)
        | .ok envs =>
          ([], .ok { system_name := "santis",
                     partition_environs := environ_names_of image_name entries,
                     partition_access := ["-pnormal"] ++ uenv_access,
                     environments := envs })
  else ([], .error (.configError (image_missing_msg image_path)))

/-- Evaluating `config/systems-uenv/santis-uenv.py` with environment
variables `uenv_var = UENV`, `rfm_meta_var = UENV_REFRAME_META` over
filesystem `fs`.  The first component collects printed warnings; the
second is the `site_configuration` or the exception that escapes. -/
def santisLoad (uenv_var rfm_meta_var : Option String) (fs : FsModel) :
    List String × Except LoadErr SiteConfig :=
  match uenv_var with
  | none => ([], .error (.configError santis_uenv_msg))
  | some uenv =>
    if uenv = "" then ([], .error (.configError santis_uenv_msg))
    else santis_after_check (uenv_first_of uenv) rfm_meta_var fs

/-! ## The pilatus configuration script -/

/-- The metadata file pilatus opens: always
`image_path.parent / f'{image_name}.yaml'`. -/
def pilatus_meta_path (uenv_first : String) : String :=
  metaPathOf (uenv_file_of uenv_first) (pathStemOf (uenv_file_of uenv_first) ++ ".yaml")

/-- Pilatus processing after the `UENV is None` check, starting from
`uenv_first`.  On `OSError` pilatus raises `ConfigError`. -/
def pilatus_after_check (uenv_first : String) (osgroup : String) (fs : FsModel) :
    Except LoadErr SiteConfig :=
  let uenv_file := uenv_file_of uenv_first
  let image_mount := image_mount_of uenv_first
  let image_path := pathNormStr uenv_file
  if fs.pathExists image_path then
    let image_name := pathStemOf uenv_file
    let uenv_access := ["--uenv-file=" ++ uenv_file ++ " --uenv-mount=" ++ image_mount]
    let rfm_meta := pilatus_meta_path uenv_first
    match fs.readMeta rfm_meta with
    | none => .error (.configError (pilatus_meta_msg rfm_meta))
    | some entries =>
      if entries.isEmpty then .error (.nameError name_err_msg)
      else
        match build_environs (pilatus_env_of image_mount image_name) entries with
        | .error err => .error err
        | .ok envs =>
          .ok { system_name := "pilatus",
                partition_environs := environ_names_of image_name entries,
                partition_access := ["-pnormal", "-Cmc", "--account=" ++ osgroup] ++ uenv_access,
                environments := envs }
  else .error (.configError (image_missing_msg image_path))

/-- Evaluating `config/systems-uenv/pilatus-uenv.py` with `UENV = uenv_var`
and `osext.osgroup() = osgroup` over filesystem `fs`.  Note the check is
`uenv is None`: an empty string passes it. -/
def pilatusLoad (uenv_var : Option String) (osgroup : String) (fs : FsModel) :
    Except LoadErr SiteConfig :=
  match uenv_var with
  | none => .error (.configError "UENV is not set")
  | some uenv => pilatus_after_check (uenv_first_of uenv) osgroup fs

/-! ## The `Check` helper of `checks/system/integration/utils.py` -/

/-- A Python value passed as `expected` / `not_expected`: `None`, a bare
regex string, or a list (whose elements may themselves be `None` or
strings, as in `[expected, 'stdout']` built from `expected = None`). -/
inductive ExpArg where
  | pyNone
  | pyStr (s : String)
  | pyList (xs : List (Option String))
deriving DecidableEq

/-- The normalisation both fields undergo in `set_command_options`:
`test.expected if isinstance(test.expected, list) else [test.expected, 'stdout']`. -/
def normalize_output_arg (v : ExpArg) : List (Option String) :=
  match v with
  | .pyList xs => xs
  | .pyStr s => [some s, some "stdout"]
  | .pyNone => [none, some "stdout"]

/-- Outcome of the `set_command_options` post-setup hook: the test is
skipped with a message (`skip_if` fires), a Python `IndexError` escapes
(a list argument shorter than 2), or the test is ready to run with its
executable and normalised output expectations. -/
inductive HookOutcome where
  | skipped (msg : String)
  | indexError
  | ready (executable : String) (expected not_expected : List (Option String))
deriving DecidableEq

/-- The `set_command_options` hook (utils.py lines 134-142). -/
def set_command_options (cmd : String) (expected not_expected : ExpArg) (caller : String) :
    HookOutcome :=
  let e := normalize_output_arg expected
  let ne := normalize_output_arg not_expected
  match e.get? 1 with
  | none => .indexError
  | some loc1 =>
    if loc1 = some "stdout" ∨ loc1 = some "stderr" then
      match ne.get? 1 with
      | none => .indexError
      | some loc2 =>
        if loc2 = some "stdout" ∨ loc2 = some "stderr" then .ready cmd e ne
        else .skipped ("Location for not_expected is not stdout or stderr " ++ caller)
    else .skipped ("Location for expected is not stdout or stderr " ++ caller)

/-- The user-settable attributes of a `Check` instance that
`Check.__call__` consults (`SYSTEM` and `MODULE_NAME` do not affect the
record the claims are about). -/
structure CheckInst where
  CLASS : String
  CLASS_EXCLUDE : List String
  CLASS_INCLUDE : List String
  DEBUG : Bool

/-- The per-test record handed to `make_test` (utils.py lines 154-171). -/
structure TestRecord where
  name : String
  cmd : String
  expected : ExpArg
  not_expected : ExpArg
  valid_systems : List String
  valid_prog_environs : List String
  time_limit : String
deriving DecidableEq

/-- What one invocation of `Check.__call__` does after bumping the
counter: return early on the include/exclude filter, return early after
the `DEBUG` printout, or build and register exactly one test class. -/
inductive CallResult where
  | filteredOut
  | debugOnly
  | registered (t : TestRecord)
deriving DecidableEq

/-- The include/exclude filter (utils.py lines 66-76): when either list is
non-empty the empty one becomes `['*']`; an exclude list without `'*'`
is decisive on its own; only an exclude list containing `'*'` defers to
the include list. `true` means the call returns without a test. -/
def class_filtered (cls : String) (excl0 incl0 : List String) : Bool :=
  let excl := if (excl0 ≠ [] ∨ incl0 ≠ []) ∧ excl0 = [] then ["*"] else excl0
  let incl := if (excl0 ≠ [] ∨ incl0 ≠ []) ∧ incl0 = [] then ["*"] else incl0
  if "*" ∉ excl then decide (cls ∈ excl)
  else if "*" ∉ incl then decide (cls ∉ incl)
  else false

/-- Python `f'{n:04}'`: decimal digits left-padded with zeros to width 4. -/
def pad4 (n : Nat) : String :=
  let s := Nat.repr n
  if s.length < 4 then String.mk (List.replicate (4 - s.length) '0' ++ s.data) else s

/-- The `where` fixup (utils.py lines 83-86): empty means any feature,
and a missing leading `+`/`-` is forgiven. -/
def where_fixed (w : String) : String :=
  if w = "" then "*"
  else
    match w.data with
    | [] => "*"
    | c :: _ => if c = '-' ∨ c = '+' then w else "+" ++ w

/-- One invocation of `Check.__call__` (utils.py lines 28-171) given the
current class-level counter `check_id`.  Returns the new counter value
together with what the call did.  The counter is bumped first, before
the include/exclude filter and the `DEBUG` early return (lines 53-57). -/
def checkCall (check_id : Nat) (inst : CheckInst) (cmd : String)
    (expected not_expected : ExpArg) (where_arg : String) : Nat × CallResult :=
  let new_id := check_id + 1
  let lcl_check_class := if inst.CLASS = "" then "" else "_" ++ inst.CLASS
  if class_filtered inst.CLASS inst.CLASS_EXCLUDE inst.CLASS_INCLUDE then
    (new_id, .filteredOut)
  else
    let w := where_fixed where_arg
    let name := "Check_" ++ pad4 new_id ++ lcl_check_class
    let valid_systems := pySplitWhitespace w
    if inst.DEBUG then (new_id, .debugOnly)
    else
      (new_id, .registered { name := name, cmd := cmd, expected := expected, not_expected := not_expected, valid_systems := valid_systems, valid_prog_environs := ["builtin"], time_limit := "2m" })

/-- The arguments of one scripted `Check` invocation (the instance it is
made on plus the call arguments). -/
structure CallArgs where
  inst : CheckInst
  cmd : String
  expected : ExpArg
  not_expected : ExpArg
  where_arg : String

/-- A sequence of `Check` invocations thread the class-level counter:
each element of the result pairs the counter value assigned to that call
with what the call did. -/
def runCalls (check_id : Nat) : List CallArgs → List (Nat × CallResult)
  | [] => []
  | a :: rest =>
    let r := checkCall check_id a.inst a.cmd a.expected a.not_expected a.where_arg
    r :: runCalls r.1 rest

/-! ## Concrete fixtures used to witness the theorems -/

/-- A typical metadata entry: one environment whose activation script
lives below the default mount point. -/
def meta_entry_example : EnvEntry :=
  { key := "default", activation := .str "/user-environment/env/default/activate.sh" }

/-- A filesystem on which every path exists and the metadata file parses
to one well-formed environment. -/
def fs_all_ok : FsModel where
  pathExists := fun _ => true
  readMeta := fun _ => some [meta_entry_example]

/-- A filesystem on which no path exists. -/
def fs_missing_image : FsModel where
  pathExists := fun _ => false
  readMeta := fun _ => none

/-- A filesystem on which every path exists but opening the metadata file
raises `OSError`. -/
def fs_meta_missing : FsModel where
  pathExists := fun _ => true
  readMeta := fun _ => none

/-- A filesystem whose metadata holds one entry with an activation value
that is neither a string nor a list. -/
def fs_other_activation : FsModel where
  pathExists := fun _ => true
  readMeta := fun _ => some [{ key := "default", activation := .other }]

/-- Did configuration loading abort with `ConfigError` (as opposed to
succeeding or aborting with some other exception)? -/
def except_config_error : Except LoadErr SiteConfig → Bool
  | .error (.configError _) => true
  | _ => false

/-- The santis configuration produced from
`UENV=/scratch/prgenv-gnu.squashfs` over `fs_all_ok`. -/
def cfgS_example : SiteConfig :=
  { system_name := "santis", partition_environs := ["prgenv-gnu_default"], partition_access := ["-pnormal", "--uenv=/scratch/prgenv-gnu.squashfs:/user-environment"], environments := [{ name := "prgenv-gnu_default", target_systems := ["santis"], prepare_cmds := ["source /user-environment/env/default/activate.sh"] }] }

/-- The pilatus configuration produced from
`UENV=/scratch/prgenv-gnu.squashfs` and `osgroup = csstaff` over
`fs_all_ok`. -/
def cfgP_example : SiteConfig :=
  { system_name := "pilatus", partition_environs := ["prgenv-gnu_default"], partition_access := ["-pnormal", "-Cmc", "--account=csstaff", "--uenv-file=/scratch/prgenv-gnu.squashfs --uenv-mount=/user-environment"], environments := [{ name := "prgenv-gnu_default", target_systems := ["pilatus"], prepare_cmds := ["source /user-environment/env/default/activate.sh"] }] }

/-! ## Helper lemmas -/

theorem splitByPred_ne_nil (p : Char → Bool) (cs : List Char) : splitByPred p cs ≠ [] := by
  cases cs with
  | nil => simp [splitByPred]
  | cons c cs =>
    simp only [splitByPred]
    split
    · simp
    · split
      · simp
      · simp

theorem splitByPred_no_delim (p : Char → Bool) (cs : List Char)
    (h : ∀ c ∈ cs, p c = false) : splitByPred p cs = [cs] := by
  induction cs with
  | nil => rfl
  | cons c cs ih =>
    have hc : p c = false := h c (by simp)
    have hrest : ∀ x ∈ cs, p x = false := fun x hx => h x (by simp [hx])
    simp only [splitByPred, hc, Bool.false_eq_true, if_false]
    rw [ih hrest]

theorem splitByPred_append (p : Char → Bool) (as bs : List Char) (d : Char)
    (hd : p d = true) (h : ∀ c ∈ as, p c = false) :
    splitByPred p (as ++ d :: bs) = as :: splitByPred p bs := by
  induction as with
  | nil => simp [splitByPred, hd]
  | cons a as ih =>
    have ha : p a = false := h a (by simp)
    have hrest : ∀ x ∈ as, p x = false := fun x hx => h x (by simp [hx])
    simp only [List.cons_append, splitByPred, ha, Bool.false_eq_true, if_false, List.append_eq]
    rw [ih hrest]

theorem string_data_append (a b : String) : (a ++ b).data = a.data ++ b.data := by
  cases a
  cases b
  rfl

theorem string_mk_data (s : String) : String.mk s.data = s := by
  cases s
  rfl

theorem hasCharIn_eq_false (c : Char) (s : String) (h : hasCharIn c s = false) :
    ∀ x ∈ s.data, (x == c) = false := by
  intro x hx
  have := List.any_eq_false.mp h x hx
  simpa using this

theorem uenv_first_of_comma_free (s : String) (h : hasCharIn ',' s = false) :
    uenv_first_of s = s := by
  unfold uenv_first_of pySplit
  rw [splitByPred_no_delim _ _ (hasCharIn_eq_false ',' s h)]
  simp [string_mk_data]

theorem uenv_first_of_drop_rest (s t : String) (h : hasCharIn ',' s = false) :
    uenv_first_of (s ++ "," ++ t) = s := by
  unfold uenv_first_of pySplit
  have hdata : (s ++ "," ++ t).data = s.data ++ ',' :: t.data := by
    rw [string_data_append, string_data_append]
    simp
  rw [hdata, splitByPred_append _ _ _ ',' (by simp) (hasCharIn_eq_false ',' s h)]
  simp [string_mk_data]

theorem uenv_file_of_colon (pre post : String) (h : hasCharIn ':' pre = false) :
    uenv_file_of (pre ++ ":" ++ post) = pre := by
  unfold uenv_file_of pySplit
  have hdata : (pre ++ ":" ++ post).data = pre.data ++ ':' :: post.data := by
    rw [string_data_append, string_data_append]
    simp
  rw [hdata, splitByPred_append _ _ _ ':' (by simp) (hasCharIn_eq_false ':' pre h)]
  simp [string_mk_data]

theorem uenv_file_of_colon_free (p : String) (h : hasCharIn ':' p = false) :
    uenv_file_of p = p ∧ image_mount_of p = "/user-environment" := by
  have hsplit := splitByPred_no_delim (fun x => x == ':') p.data (hasCharIn_eq_false ':' p h)
  constructor
  · unfold uenv_file_of pySplit
    rw [hsplit]
    simp [string_mk_data]
  · unfold image_mount_of pySplit
    rw [hsplit]
    simp

theorem append_comma_ne_empty (s t : String) : s ++ "," ++ t ≠ "" := by
  intro h
  have : (s ++ "," ++ t).data = ("" : String).data := by rw [h]
  rw [string_data_append, string_data_append] at this
  simp at this

theorem santis_env_of_name (mount nm : String) (e : EnvEntry) (r : EnvRecord)
    (h : santis_env_of mount nm e = .ok r) : r.name = nm ++ "_" ++ e.key := by
  unfold santis_env_of at h
  cases he : e.activation with
  | str s =>
    rw [he] at h
    by_cases hs : strStartsWith s mount = true
    · simp only [hs, if_true] at h
      cases h
      rfl
    · simp only [Bool.not_eq_true] at hs
      simp [hs] at h
  | list cmds => rw [he] at h; cases h
  | other => rw [he] at h; cases h

theorem pilatus_env_of_name (mount nm : String) (e : EnvEntry) (r : EnvRecord)
    (h : pilatus_env_of mount nm e = .ok r) : r.name = nm ++ "_" ++ e.key := by
  unfold pilatus_env_of at h
  cases he : e.activation with
  | str s =>
    rw [he] at h
    by_cases hs : strStartsWith s mount = true
    · simp only [hs, if_true] at h
      cases h
      rfl
    · simp only [Bool.not_eq_true] at hs
      simp [hs] at h
  | list cmds =>
    rw [he] at h
    cases h
    rfl
  | other => rw [he] at h; cases h

theorem build_environs_map_name (per : EnvEntry → Except LoadErr EnvRecord) (nm : String)
    (hper : ∀ e r, per e = .ok r → r.name = nm ++ "_" ++ e.key) :
    ∀ l envs, build_environs per l = .ok envs →
      envs.map EnvRecord.name = l.map (fun e => nm ++ "_" ++ e.key) := by
  intro l
  induction l with
  | nil =>
    intro envs h
    cases h
    rfl
  | cons e rest ih =>
    intro envs h
    unfold build_environs at h
    cases hp : per e with
    | error err => rw [hp] at h; cases h
    | ok r =>
      rw [hp] at h
      cases hb : build_environs per rest with
      | error err => rw [hb] at h; cases h
      | ok rs =>
        rw [hb] at h
        cases h
        simp only [List.map_cons]
        rw [hper e r hp, ih rs hb]

theorem environ_names_of_nonempty (nm : String) (entries : List EnvEntry)
    (h : entries ≠ []) :
    environ_names_of nm entries = entries.map (fun e => nm ++ "_" ++ e.key) := by
  unfold environ_names_of
  cases entries with
  | nil => exact absurd rfl h
  | cons e rest => rfl

theorem checkCall_fst (check_id : Nat) (inst : CheckInst) (cmd : String)
    (e ne : ExpArg) (w : String) :
    (checkCall check_id inst cmd e ne w).1 = check_id + 1 := by
  simp only [checkCall]
  split
  · rfl
  · split
    · rfl
    · rfl

theorem santis_after_check_ok (first : String) (rv : Option String) (fs : FsModel)
    (entries : List EnvEntry) (cfg : SiteConfig)
    (hread : fs.readMeta (santis_meta_path first rv) = some entries)
    (hok : (santis_after_check first rv fs).2 = .ok cfg) :
    ∃ envs,
      build_environs (santis_env_of (image_mount_of first) (pathStemOf (uenv_file_of first))) entries = .ok envs
      ∧ cfg.environments = envs
      ∧ cfg.partition_environs = environ_names_of (pathStemOf (uenv_file_of first)) entries
      ∧ entries ≠ [] := by
  simp only [santis_after_check] at hok
  split at hok
  · split at hok
    next heq =>
      rw [hread] at heq
      cases heq
    next entries' heq =>
      rw [hread] at heq
      injection heq with he
      subst he
      split at hok
      next => simp at hok
      next hne =>
        split at hok
        next => simp at hok
        next envs hb =>
          simp only [Except.ok.injEq] at hok
          refine ⟨envs, hb, by rw [← hok], by rw [← hok], ?_⟩
          intro hnil
          rw [hnil] at hne
          simp at hne
  · simp at hok

theorem pilatus_after_check_ok (first : String) (og : String) (fs : FsModel)
    (entries : List EnvEntry) (cfg : SiteConfig)
    (hread : fs.readMeta (pilatus_meta_path first) = some entries)
    (hok : pilatus_after_check first og fs = .ok cfg) :
    ∃ envs,
      build_environs (pilatus_env_of (image_mount_of first) (pathStemOf (uenv_file_of first))) entries = .ok envs
      ∧ cfg.environments = envs
      ∧ cfg.partition_environs = environ_names_of (pathStemOf (uenv_file_of first)) entries
      ∧ entries ≠ [] := by
  simp only [pilatus_after_check] at hok
  split at hok
  · split at hok
    next heq =>
      rw [hread] at heq
      cases heq
    next entries' heq =>
      rw [hread] at heq
      injection heq with he
      subst he
      split at hok
      next => simp at hok
      next hne =>
        split at hok
        next => simp at hok
        next envs hb =>
          simp only [Except.ok.injEq] at hok
          refine ⟨envs, hb, by rw [← hok], by rw [← hok], ?_⟩
          intro hnil
          rw [hnil] at hne
          simp at hne
  · simp at hok

/-! ## Claim theorems -/

/-- Claim C2: the `Check` helper classifies the expected (and
not_expected) output location: a bare string defaults to `'stdout'`, a
`[regex, location]` pair keeps the given location, and a location that
is neither `'stdout'` nor `'stderr'` makes the generated test skip with
a descriptive message instead of running. -/
theorem check_output_location_classification
    (cmd caller s r loc : String) (xs : List (Option String)) (ne : ExpArg)
    (hloc : loc ≠ "stdout" ∧ loc ≠ "stderr") :
    normalize_output_arg (.pyStr s) = [some s, some "stdout"]
    ∧ normalize_output_arg (.pyList xs) = xs
    ∧ set_command_options cmd (.pyStr s) (.pyStr r) caller
        = .ready cmd [some s, some "stdout"] [some r, some "stdout"]
    ∧ set_command_options cmd (.pyList [some r, some "stderr"]) .pyNone caller
        = .ready cmd [some r, some "stderr"] [none, some "stdout"]
    ∧ set_command_options cmd (.pyList [some r, some loc]) ne caller
        = .skipped ("Location for expected is not stdout or stderr " ++ caller)
    ∧ set_command_options cmd (.pyStr s) (.pyList [some r, some loc]) caller
        = .skipped ("Location for not_expected is not stdout or stderr " ++ caller) := by
  refine ⟨rfl, rfl, rfl, rfl, ?_, ?_⟩
  · simp [set_command_options, normalize_output_arg, hloc.1, hloc.2]
  · simp [set_command_options, normalize_output_arg, hloc.1, hloc.2]

/-- Witness for C2 at a concrete invalid location. -/
theorem check_output_location_classification_witness :
    (("bogus" : String) ≠ "stdout" ∧ ("bogus" : String) ≠ "stderr")
    ∧ set_command_options "echo hi" (.pyList [some "hi", some "bogus"]) .pyNone "[t.py:3]"
        = .skipped ("Location for expected is not stdout or stderr " ++ "[t.py:3]") := by
  refine ⟨by decide, ?_⟩
  exact (check_output_location_classification "echo hi" "[t.py:3]" "s" "hi" "bogus" []
    .pyNone (by decide)).2.2.2.2.1

/-- Claim C7: a call of `Check.__call__` that survives the
include/exclude filter and is not in DEBUG mode registers exactly one
test class carrying the per-test record: name
`Check_<4-digit counter>[_CLASS]`, the command, expected and
not_expected as given, `valid_systems` from the fixed-up `where`
argument, `valid_prog_environs = ['builtin']` and `time_limit = '2m'`. -/
theorem check_call_registers_record
    (check_id : Nat) (inst : CheckInst) (cmd : String) (e ne : ExpArg) (w : String)
    (hf : class_filtered inst.CLASS inst.CLASS_EXCLUDE inst.CLASS_INCLUDE = false)
    (hd : inst.DEBUG = false) :
    checkCall check_id inst cmd e ne w
      = (check_id + 1, .registered { name := "Check_" ++ pad4 (check_id + 1) ++ (if inst.CLASS = "" then "" else "_" ++ inst.CLASS), cmd := cmd, expected := e, not_expected := ne, valid_systems := pySplitWhitespace (where_fixed w), valid_prog_environs := ["builtin"], time_limit := "2m" }) := by
  simp [checkCall, hf, hd]

/-- Witness for C7: the first call on a fresh instance registers
`Check_0001` valid on any system. -/
theorem check_call_registers_record_witness :
    checkCall 0 { CLASS := "", CLASS_EXCLUDE := [], CLASS_INCLUDE := [], DEBUG := false } "uname -a" .pyNone .pyNone ""
      = (1, .registered { name := "Check_0001", cmd := "uname -a", expected := .pyNone, not_expected := .pyNone, valid_systems := ["*"], valid_prog_environs := ["builtin"], time_limit := "2m" }) := by
  have h := check_call_registers_record 0
    { CLASS := "", CLASS_EXCLUDE := [], CLASS_INCLUDE := [], DEBUG := false }
    "uname -a" .pyNone .pyNone "" (by decide) rfl
  exact h.trans (by decide)

/-- Claim C8: every invocation of `Check.__call__` bumps the class-level
counter by exactly one, before filtering and the DEBUG early return; so
over any sequence of calls the assigned numbers are the consecutive
range starting after the initial counter (strictly increasing, unique,
and independent of which calls were excluded or in DEBUG mode), and a
registered test's name embeds exactly the number assigned to its call. -/
theorem check_id_increment_invariant :
    (∀ (check_id : Nat) (inst : CheckInst) (cmd : String) (e ne : ExpArg) (w : String),
        (checkCall check_id inst cmd e ne w).1 = check_id + 1)
    ∧ (∀ (check_id : Nat) (calls : List CallArgs),
        (runCalls check_id calls).map Prod.fst = List.range' (check_id + 1) calls.length)
    ∧ (∀ (check_id : Nat) (inst : CheckInst) (cmd : String) (e ne : ExpArg) (w : String) (t : TestRecord),
        (checkCall check_id inst cmd e ne w).2 = CallResult.registered t →
        t.name = "Check_" ++ pad4 (check_id + 1) ++ (if inst.CLASS = "" then "" else "_" ++ inst.CLASS)) := by
  refine ⟨checkCall_fst, ?_, ?_⟩
  · intro check_id calls
    induction calls generalizing check_id with
    | nil => rfl
    | cons a rest ih =>
      simp only [runCalls, List.map_cons, List.length_cons, checkCall_fst]
      rw [ih (check_id + 1)]
      rfl
  · intro check_id inst cmd e ne w t h
    simp only [checkCall] at h
    split at h
    · simp at h
    · split at h
      · simp at h
      · simp only [CallResult.registered.injEq] at h
        rw [← h]

/-- Witness for C8: the counter advances across a DEBUG call, an excluded
call and a registered call alike, and the registered name embeds the
assigned number. -/
theorem check_id_increment_invariant_witness :
    (checkCall 7 { CLASS := "net", CLASS_EXCLUDE := [], CLASS_INCLUDE := [], DEBUG := false } "x" .pyNone .pyNone "").1 = 8
    ∧ (runCalls 0 [{ inst := { CLASS := "a", CLASS_EXCLUDE := [], CLASS_INCLUDE := [], DEBUG := true }, cmd := "c1", expected := .pyNone, not_expected := .pyNone, where_arg := "" }, { inst := { CLASS := "b", CLASS_EXCLUDE := ["b"], CLASS_INCLUDE := [], DEBUG := false }, cmd := "c2", expected := .pyNone, not_expected := .pyNone, where_arg := "" }, { inst := { CLASS := "", CLASS_EXCLUDE := [], CLASS_INCLUDE := [], DEBUG := false }, cmd := "c3", expected := .pyNone, not_expected := .pyNone, where_arg := "" }]).map Prod.fst = [1, 2, 3]
    ∧ ("Check_0008_net" : String) = "Check_" ++ pad4 (7 + 1) ++ (if ("net" : String) = "" then "" else "_" ++ "net") := by
  refine ⟨check_id_increment_invariant.1 7 _ "x" .pyNone .pyNone "", ?_, ?_⟩
  · exact (check_id_increment_invariant.2.1 0 _).trans (by decide)
  · exact (check_id_increment_invariant.2.2 7
      { CLASS := "net", CLASS_EXCLUDE := [], CLASS_INCLUDE := [], DEBUG := false }
      "x" .pyNone .pyNone ""
      { name := "Check_0008_net", cmd := "x", expected := .pyNone, not_expected := .pyNone, valid_systems := ["*"], valid_prog_environs := ["builtin"], time_limit := "2m" }
      (by decide))

/-- Claim C10: exclusion takes precedence over inclusion in
`Check.__call__`: with both lists empty nothing is filtered; a non-empty
exclude list without `'*'` alone decides (the include list is ignored);
only when the effective exclude list holds `'*'` (including the case of
an empty exclude next to a non-empty include) is the include list
consulted, and a class absent from a star-free include list is
filtered; an empty include list next to a starred exclude list behaves
as `['*']` and filters nothing. -/
theorem class_filtering_precedence
    (cls : String) (excl incl incl2 : List String) :
    (class_filtered cls [] [] = false)
    ∧ (excl ≠ [] → "*" ∉ excl →
        class_filtered cls excl incl = decide (cls ∈ excl)
        ∧ class_filtered cls excl incl = class_filtered cls excl incl2)
    ∧ ("*" ∈ excl → incl ≠ [] → "*" ∉ incl →
        class_filtered cls excl incl = decide (cls ∉ incl))
    ∧ (incl ≠ [] → "*" ∉ incl → class_filtered cls [] incl = decide (cls ∉ incl))
    ∧ (excl ≠ [] → "*" ∈ excl → class_filtered cls excl [] = false) := by
  refine ⟨rfl, ?_, ?_, ?_, ?_⟩
  · intro hne hstar
    constructor
    · simp [class_filtered, hne, hstar]
    · simp [class_filtered, hne, hstar]
  · intro hstar hne hnostar
    have hexcl : excl ≠ [] := by
      intro h
      rw [h] at hstar
      simp at hstar
    simp [class_filtered, hexcl, hne, hstar, hnostar]
  · intro hne hnostar
    simp [class_filtered, hne, hnostar]
  · intro hne hstar
    simp [class_filtered, hne, hstar]

/-- Witness for C10 at concrete lists. -/
theorem class_filtering_precedence_witness :
    class_filtered "mount" ["mount"] ["mount"] = true
    ∧ class_filtered "mount" [] ["slurm"] = true
    ∧ class_filtered "mount" ["*"] [] = false := by
  have h1 := (class_filtering_precedence "mount" ["mount"] ["mount"] []).2.1
    (by decide) (by decide)
  have h2 := (class_filtering_precedence "mount" ["x"] ["slurm"] []).2.2.2.1
    (by decide) (by decide)
  have h3 := (class_filtering_precedence "mount" ["*"] [] []).2.2.2.2
    (by decide) (by decide)
  exact ⟨h1.1.trans (by decide), h2.trans (by decide), h3⟩

/-- Claim C5 (amended): santis raises `ConfigError` when `UENV` is unset
or empty; pilatus raises only when `UENV` is unset (`uenv is None`) —
an empty `UENV` passes its check and loading proceeds to the image-path
test with `pathlib.Path('')`, i.e. the path `'.'`. -/
theorem uenv_missing_check_behavior
    (rv : Option String) (og : String) (fs : FsModel) :
    santisLoad none rv fs = ([], .error (.configError santis_uenv_msg))
    ∧ santisLoad (some "") rv fs = ([], .error (.configError santis_uenv_msg))
    ∧ pilatusLoad none og fs = .error (.configError "UENV is not set")
    ∧ (fs.pathExists "." = false →
        pilatusLoad (some "") og fs = .error (.configError (image_missing_msg "."))) := by
  refine ⟨rfl, rfl, rfl, ?_⟩
  intro h
  have e : pathNormStr (uenv_file_of (uenv_first_of "")) = "." := rfl
  simp only [pilatusLoad, pilatus_after_check]
  rw [e, h]
  simp

/-- Witness for C5 at a concrete filesystem without a `'.'` entry. -/
theorem uenv_missing_check_behavior_witness :
    santisLoad (some "") none fs_missing_image = ([], .error (.configError santis_uenv_msg))
    ∧ fs_missing_image.pathExists "." = false
    ∧ pilatusLoad (some "") "csstaff" fs_missing_image = .error (.configError (image_missing_msg ".")) := by
  have h := uenv_missing_check_behavior none "csstaff" fs_missing_image
  exact ⟨h.2.1, by decide, h.2.2.2 (by decide)⟩

/-- Counterexample to claim C5 as stated: with `UENV` set to the empty
string the pilatus configuration script does not raise at all — over a
filesystem where every path exists and the metadata file is readable it
produces a full site configuration. -/
theorem uenv_empty_pilatus_succeeds :
    pilatusLoad (some "") "csstaff" fs_all_ok = .ok { system_name := "pilatus", partition_environs := ["_default"], partition_access := ["-pnormal", "-Cmc", "--account=csstaff", "--uenv-file= --uenv-mount=/user-environment"], environments := [{ name := "_default", target_systems := ["pilatus"], prepare_cmds := ["source /user-environment/env/default/activate.sh"] }] } := by
  decide

/-- Claim C6: when the uenv image path does not exist on the
filesystem, both site configurations raise `ConfigError` with a message
that names the nonexistent path. -/
theorem image_path_missing_raises
    (u : String) (rv : Option String) (og : String) (fs : FsModel)
    (hu : u ≠ "")
    (hex : fs.pathExists (pathNormStr (uenv_file_of (uenv_first_of u))) = false) :
    santisLoad (some u) rv fs
      = ([], .error (.configError (image_missing_msg (pathNormStr (uenv_file_of (uenv_first_of u))))))
    ∧ pilatusLoad (some u) og fs
      = .error (.configError (image_missing_msg (pathNormStr (uenv_file_of (uenv_first_of u))))) := by
  constructor
  · simp only [santisLoad]
    rw [if_neg hu]
    simp only [santis_after_check]
    rw [hex]
    simp
  · simp only [pilatusLoad, pilatus_after_check]
    rw [hex]
    simp

/-- Witness for C6 at a concrete missing image. -/
theorem image_path_missing_raises_witness :
    santisLoad (some "/a/b.squashfs") none fs_missing_image
      = ([], .error (.configError (image_missing_msg "/a/b.squashfs")))
    ∧ pilatusLoad (some "/a/b.squashfs") "csstaff" fs_missing_image
      = .error (.configError (image_missing_msg "/a/b.squashfs")) := by
  have h := image_path_missing_raises "/a/b.squashfs" none "csstaff" fs_missing_image
    (by decide) (by decide)
  exact ⟨h.1.trans (by decide), h.2.trans (by decide)⟩

/-- Claim C9 (amended): provided the first comma-separated pair of `UENV`
is non-empty, only that pair matters: appending further pairs does not
change either site's result, the image file is the text before the
first colon of the pair, and a pair without a colon gets the
`'/user-environment'` default mount point.  (When the first pair is
empty the claim fails as stated: the trailing pairs still make the
whole variable non-empty, changing santis's emptiness check.) -/
theorem first_uenv_pair_only
    (s t p pre post : String) (rv : Option String) (og : String) (fs : FsModel)
    (hs : s ≠ "") (hcomma : hasCharIn ',' s = false)
    (hp : hasCharIn ':' p = false) (hpre : hasCharIn ':' pre = false) :
    santisLoad (some (s ++ "," ++ t)) rv fs = santisLoad (some s) rv fs
    ∧ pilatusLoad (some (s ++ "," ++ t)) og fs = pilatusLoad (some s) og fs
    ∧ uenv_file_of (pre ++ ":" ++ post) = pre
    ∧ uenv_file_of p = p
    ∧ image_mount_of p = "/user-environment" := by
  refine ⟨?_, ?_, ?_, ?_, ?_⟩
  · simp only [santisLoad]
    rw [if_neg (append_comma_ne_empty s t), if_neg hs,
      uenv_first_of_drop_rest s t hcomma, uenv_first_of_comma_free s hcomma]
  · simp only [pilatusLoad]
    rw [uenv_first_of_drop_rest s t hcomma, uenv_first_of_comma_free s hcomma]
  · exact uenv_file_of_colon pre post hpre
  · exact (uenv_file_of_colon_free p hp).1
  · exact (uenv_file_of_colon_free p hp).2

/-- Witness for C9 at a concrete two-pair `UENV` value. -/
theorem first_uenv_pair_only_witness :
    santisLoad (some ("/a/img.squashfs" ++ "," ++ "b.squashfs:/um")) none fs_missing_image
      = santisLoad (some "/a/img.squashfs") none fs_missing_image
    ∧ uenv_file_of ("img.squashfs" ++ ":" ++ "/um") = "img.squashfs"
    ∧ image_mount_of "/a/img.squashfs" = "/user-environment" := by
  have h := first_uenv_pair_only "/a/img.squashfs" "b.squashfs:/um" "/a/img.squashfs"
    "img.squashfs" "/um" none "csstaff" fs_missing_image
    (by decide) (by decide) (by decide) (by decide)
  exact ⟨h.1, h.2.2.1, h.2.2.2.2⟩

/-- Counterexample to claim C9 as stated: `UENV=","` and `UENV=""` share
the same (empty) first pair, yet the extra comma-separated pair changes
the santis result — the variable is no longer falsy, so loading
proceeds past the `UENV` check instead of raising its error. -/
theorem uenv_extra_pairs_affect_result :
    santisLoad (some ",") none fs_missing_image
      ≠ santisLoad (some "") none fs_missing_image := by
  decide

/-- Claim C1 (amended): when the metadata YAML file cannot be opened,
pilatus raises `ConfigError` with a descriptive message, but santis
catches the `OSError`, prints a warning, and continues with an empty
environment set — startup then aborts with a `NameError` on the
undefined `actual_environs`, not with a configuration error. -/
theorem meta_open_failure_behavior
    (u : String) (rv : Option String) (og : String) (fs : FsModel)
    (hu : u ≠ "")
    (hex : fs.pathExists (pathNormStr (uenv_file_of (uenv_first_of u))) = true)
    (hrs : fs.readMeta (santis_meta_path (uenv_first_of u) rv) = none)
    (hrp : fs.readMeta (pilatus_meta_path (uenv_first_of u)) = none) :
    santisLoad (some u) rv fs
      = ([santis_warn_msg (pathStemOf (uenv_file_of (uenv_first_of u))) (santis_meta_path (uenv_first_of u) rv)], .error (.nameError name_err_msg))
    ∧ pilatusLoad (some u) og fs
      = .error (.configError (pilatus_meta_msg (pilatus_meta_path (uenv_first_of u)))) := by
  constructor
  · simp only [santisLoad]
    rw [if_neg hu]
    simp only [santis_after_check]
    rw [hex, hrs]
    simp
  · simp only [pilatusLoad, pilatus_after_check]
    rw [hex, hrp]
    simp

/-- Witness for C1 at a concrete unreadable metadata file. -/
theorem meta_open_failure_behavior_witness :
    santisLoad (some "/scratch/prgenv-gnu.squashfs") none fs_meta_missing
      = ([santis_warn_msg "prgenv-gnu" "/scratch/prgenv-gnu.yaml"], .error (.nameError name_err_msg))
    ∧ pilatusLoad (some "/scratch/prgenv-gnu.squashfs") "csstaff" fs_meta_missing
      = .error (.configError (pilatus_meta_msg "/scratch/prgenv-gnu.yaml")) := by
  have h := meta_open_failure_behavior "/scratch/prgenv-gnu.squashfs" none "csstaff"
    fs_meta_missing (by decide) (by decide) (by decide) (by decide)
  exact ⟨h.1.trans (by decide), h.2.trans (by decide)⟩

/-- Counterexample to claim C1 as stated: on santis an unreadable
metadata file does not raise a configuration error — the `OSError` is
caught, a warning is printed, and loading continues with an empty
environment set (the eventual abort is a `NameError`). -/
theorem meta_open_failure_santis_not_configerror :
    except_config_error (santisLoad (some "/scratch/prgenv-gnu.squashfs") none fs_meta_missing).2 = false
    ∧ (santisLoad (some "/scratch/prgenv-gnu.squashfs") none fs_meta_missing).1
        = [santis_warn_msg "prgenv-gnu" "/scratch/prgenv-gnu.yaml"]
    ∧ (santisLoad (some "/scratch/prgenv-gnu.squashfs") none fs_meta_missing).2
        = .error (.nameError name_err_msg) := by
  decide

/-- Claim C4: whenever either site configuration loads successfully, each
key `k` of the loaded metadata yields the environment name
`{image}_{k}` (image stem, underscore, key) both as the `name` field of
the corresponding environment record and as a member of the partition's
`environs` list. -/
theorem environ_naming_convention
    (u : String) (rv : Option String) (og : String) (fs : FsModel)
    (entriesS entriesP : List EnvEntry) (cfgS cfgP : SiteConfig)
    (hrs : fs.readMeta (santis_meta_path (uenv_first_of u) rv) = some entriesS)
    (hS : (santisLoad (some u) rv fs).2 = .ok cfgS)
    (hrp : fs.readMeta (pilatus_meta_path (uenv_first_of u)) = some entriesP)
    (hP : pilatusLoad (some u) og fs = .ok cfgP) :
    cfgS.environments.map EnvRecord.name
        = entriesS.map (fun e => pathStemOf (uenv_file_of (uenv_first_of u)) ++ "_" ++ e.key)
    ∧ (∀ e ∈ entriesS,
        pathStemOf (uenv_file_of (uenv_first_of u)) ++ "_" ++ e.key ∈ cfgS.partition_environs)
    ∧ cfgP.environments.map EnvRecord.name
        = entriesP.map (fun e => pathStemOf (uenv_file_of (uenv_first_of u)) ++ "_" ++ e.key)
    ∧ (∀ e ∈ entriesP,
        pathStemOf (uenv_file_of (uenv_first_of u)) ++ "_" ++ e.key ∈ cfgP.partition_environs) := by
  by_cases hu : u = ""
  · subst hu
    simp [santisLoad] at hS
  · have hS' : (santis_after_check (uenv_first_of u) rv fs).2 = .ok cfgS := by
      simpa [santisLoad, hu] using hS
    have hP' : pilatus_after_check (uenv_first_of u) og fs = .ok cfgP := by
      simpa [pilatusLoad] using hP
    obtain ⟨envsS, hbS, heS, hpS, hneS⟩ :=
      santis_after_check_ok (uenv_first_of u) rv fs entriesS cfgS hrs hS'
    obtain ⟨envsP, hbP, heP, hpP, hneP⟩ :=
      pilatus_after_check_ok (uenv_first_of u) og fs entriesP cfgP hrp hP'
    refine ⟨?_, ?_, ?_, ?_⟩
    · rw [heS]
      exact build_environs_map_name _ _ (fun e r h => santis_env_of_name _ _ e r h) entriesS envsS hbS
    · intro e he
      rw [hpS, environ_names_of_nonempty _ _ hneS]
      exact List.mem_map_of_mem _ he
    · rw [heP]
      exact build_environs_map_name _ _ (fun e r h => pilatus_env_of_name _ _ e r h) entriesP envsP hbP
    · intro e he
      rw [hpP, environ_names_of_nonempty _ _ hneP]
      exact List.mem_map_of_mem _ he

/-- Witness for C4 at the concrete image `/scratch/prgenv-gnu.squashfs`
and metadata `{default: ...}`. -/
theorem environ_naming_convention_witness :
    cfgS_example.environments.map EnvRecord.name
      = [meta_entry_example].map (fun e => pathStemOf (uenv_file_of (uenv_first_of "/scratch/prgenv-gnu.squashfs")) ++ "_" ++ e.key)
    ∧ pathStemOf (uenv_file_of (uenv_first_of "/scratch/prgenv-gnu.squashfs")) ++ "_" ++ meta_entry_example.key ∈ cfgP_example.partition_environs := by
  have h := environ_naming_convention "/scratch/prgenv-gnu.squashfs" none "csstaff" fs_all_ok
    [meta_entry_example] [meta_entry_example] cfgS_example cfgP_example
    (by decide) (by decide) (by decide) (by decide)
  exact ⟨h.1, h.2.2.2 meta_entry_example (by decide)⟩

/-- Claim C3 (amended): a malformed `activation` field aborts
configuration loading, but not always with a configuration error.  A
string activation that does not start with the mount point raises
`ConfigError` on both sites, and on pilatus a value that is neither a
string nor a list raises `ConfigError` with a descriptive message —
but on santis any non-string activation (a list of commands included)
aborts with a Python `AttributeError` (`.startswith` on a non-string)
rather than a configuration-error signal. -/
theorem activation_validation_behavior
    (mount image_name k s : String) (cmds : List String) (rest : List EnvEntry)
    (u : String) (og : String) (fs : FsModel)
    (hbad : strStartsWith s mount = false)
    (hu : u ≠ "")
    (hex : fs.pathExists (pathNormStr (uenv_file_of (uenv_first_of u))) = true)
    (hrs : fs.readMeta (santis_meta_path (uenv_first_of u) none) = some ({ key := k, activation := .other } :: rest))
    (hrp : fs.readMeta (pilatus_meta_path (uenv_first_of u)) = some ({ key := k, activation := .other } :: rest)) :
    santis_env_of mount image_name { key := k, activation := .str s }
        = .error (.configError (activation_mount_msg k mount))
    ∧ pilatus_env_of mount image_name { key := k, activation := .str s }
        = .error (.configError (activation_mount_msg k mount))
    ∧ pilatus_env_of mount image_name { key := k, activation := .other }
        = .error (.configError pilatus_activation_msg)
    ∧ pilatus_env_of mount image_name { key := k, activation := .list cmds }
        = .ok { name := image_name ++ "_" ++ k, target_systems := ["pilatus"], prepare_cmds := cmds }
    ∧ santis_env_of mount image_name { key := k, activation := .list cmds }
        = .error (.attributeError "'list' object has no attribute 'startswith'")
    ∧ santis_env_of mount image_name { key := k, activation := .other }
        = .error (.attributeError "object has no attribute 'startswith'")
    ∧ pilatusLoad (some u) og fs = .error (.configError pilatus_activation_msg)
    ∧ (santisLoad (some u) none fs).2 = .error (.attributeError "object has no attribute 'startswith'") := by
  refine ⟨?_, ?_, rfl, rfl, rfl, rfl, ?_, ?_⟩
  · simp [santis_env_of, hbad]
  · simp [pilatus_env_of, hbad]
  · simp only [pilatusLoad, pilatus_after_check]
    rw [hex, if_pos rfl, hrp]
    simp [build_environs, pilatus_env_of]
  · simp only [santisLoad]
    rw [if_neg hu]
    simp only [santis_after_check]
    rw [hex, if_pos rfl, hrs]
    simp [build_environs, santis_env_of]

/-- Witness for C3 at a concrete metadata with a mapping-valued
activation. -/
theorem activation_validation_behavior_witness :
    pilatusLoad (some "/scratch/img.squashfs") "csstaff" fs_other_activation
      = .error (.configError pilatus_activation_msg)
    ∧ (santisLoad (some "/scratch/img.squashfs") none fs_other_activation).2
      = .error (.attributeError "object has no attribute 'startswith'")
    ∧ strStartsWith "/um/activate.sh" "/user-environment" = false := by
  have h := activation_validation_behavior "/user-environment" "img" "default"
    "/um/activate.sh" ["cmd"] [] "/scratch/img.squashfs" "csstaff" fs_other_activation
    (by decide) (by decide) (by decide) (by decide) (by decide)
  exact ⟨h.2.2.2.2.2.2.1, h.2.2.2.2.2.2.2, by decide⟩

/-- Counterexample to claim C3 as stated: on santis a malformed
activation value that is neither a string nor a list does not raise a
configuration-error signal (it aborts with `AttributeError`). -/
theorem activation_nonstring_santis_not_configerror :
    except_config_error (santisLoad (some "/scratch/img.squashfs") none fs_other_activation).2 = false
    ∧ (santisLoad (some "/scratch/img.squashfs") none fs_other_activation).2
        = .error (.attributeError "object has no attribute 'startswith'") := by
  decide

end CSCSReframe
